import Mathlib

/-!
Shallow embedding of the challenge lifecycle and prize-escrow controller
(`src/website/src/controllers/api-v3/challenges.js`) and proofs about it.

Balances and prize amounts are JavaScript numbers used for currency; they are
modelled as rationals (`ℚ`).  External stores (group, member, task, challenge
lookups) are modelled as explicit arguments and result values, following the
collaborator contracts the controller consumes.
-/

namespace HabiticaChallenges

/-- Errors raised by the controller handlers: validation failures from
`req.validationErrors()`, `NotFound`, `NotAuthorized` (from
`libs/api-v3/errors`), and JavaScript runtime `TypeError`s. -/
inductive ApiError where
  | validation (msg : String)
  | notFound (msg : String)
  | notAuthorized (msg : String)
  | typeError (msg : String)
  deriving Repr, DecidableEq

/-- The fields of a user document that this controller reads or writes:
`_id`, `balance`, `contributor.admin`, `challenges`,
`achievements.challenges`, `preferences.emailNotifications.wonChallenge`
(a possibly-absent boolean, hence `Option Bool`) and `profile.name`. -/
structure User where
  id : String
  balance : ℚ
  contributorAdmin : Bool
  challenges : List String
  achievementsChallenges : List String
  wonChallengeEmailPref : Option Bool
  profileName : String
  deriving Repr, DecidableEq

/-- The fields of a group document read or written by the controller:
`_id`, `balance`, `challengeCount`, `leader`, and the
`leaderOnly.challenges` policy flag. -/
structure Group where
  id : String
  balance : ℚ
  challengeCount : Int
  leader : String
  leaderOnlyChallenges : Bool
  deriving Repr, DecidableEq

/-- Task types of the task models (`models/task`). -/
inductive TaskType where
  | habit
  | daily
  | todo
  | reward
  deriving Repr, DecidableEq

/-- The challenge document's `tasksOrder` per-type id lists. -/
structure TasksOrder where
  habits : List String
  dailys : List String
  todos : List String
  rewards : List String
  deriving Repr, DecidableEq

/-- The fields of a challenge document used by this controller. -/
structure Challenge where
  id : String
  group : String
  leader : String
  name : String
  prize : ℚ
  official : Bool
  tasksOrder : TasksOrder
  deriving Repr, DecidableEq

/-- The fields of a task document used by this controller: `challenge.id`
binds it to a challenge, `userId` is absent on unowned seed task templates,
and `challenge.broken` / `challenge.winner` are the teardown marks. -/
structure Task where
  id : String
  type : TaskType
  challengeId : Option String
  userId : Option String
  challengeBroken : Option String
  challengeWinner : Option String
  deriving Repr, DecidableEq

/-- A task specification supplied in a creation request body. -/
structure TaskSpec where
  type : TaskType
  id : String
  deriving Repr, DecidableEq

/-- The creation request body fields the handler reads: `group`, `prize`,
`tasks`, `official`, and the challenge `name`. -/
structure CreateBody where
  group : String
  prize : ℚ
  tasks : List TaskSpec
  official : Bool
  name : String
  deriving Repr, DecidableEq

/-- The second argument of `_closeChal` (`broken = {}`): an optional broken
reason and an optional winner document. -/
structure BrokenInfo where
  broken : Option String
  winner : Option User
  deriving Repr, DecidableEq

/-- `prize / 4`, the actual currency cost, as computed at lines 55, 175
and 181 of the controller. -/
def prizeCost (prize : ℚ) : ℚ := prize / 4

/-- Line 54: `group.balance && group.leader === user._id ? group.balance : 0`.
JavaScript truthiness of a number is `≠ 0`. -/
def groupBalanceEligible (group : Group) (user : User) : ℚ :=
  if group.balance ≠ 0 ∧ group.leader = user.id then group.balance else 0

/-- The in-memory result of the funding block: the (possibly mutated) group
and user objects, plus the error thrown, if any.  A thrown error leaves the
objects exactly as they were at the throw point. -/
structure FundOut where
  group : Group
  user : User
  thrown : Option ApiError
  deriving Repr, DecidableEq

/-- The escrow funding block of `api.createChallenge` (lines 53-73):
if `prize > 0`, compute the eligible group balance and `prizeCost`, throw
`NotAuthorized('cantAfford')` when the cost exceeds the combined balances,
otherwise consume the group balance first and the user balance for the
remainder.  Note the source computes the remainder from `group.balance`
(line 66), which equals the eligible balance in that branch. -/
def fund (group : Group) (user : User) (prize : ℚ) : FundOut :=
  if 0 < prize then
    if prizeCost prize > user.balance + groupBalanceEligible group user then
      ⟨group, user, some (ApiError.notAuthorized "cantAfford")⟩
    else if groupBalanceEligible group user ≥ prizeCost prize then
      ⟨{ group with balance := group.balance - prizeCost prize }, user, none⟩
    else if groupBalanceEligible group user > 0 then
      ⟨{ group with balance := 0 },
       { user with balance := user.balance - (prizeCost prize - group.balance) }, none⟩
    else
      ⟨group, { user with balance := user.balance - prizeCost prize }, none⟩
  else ⟨group, user, none⟩

/-- Lines 78-80: the challenge entity built from the request body, with
`leader` forced to the requesting user and `official` forced to
`user.contributor.admin && req.body.official`.  The generated `_id` is
modelled as the argument `freshId`. -/
def buildChallenge (user : User) (body : CreateBody) (freshId : String) : Challenge :=
  { id := freshId
    group := body.group
    leader := user.id
    name := body.name
    prize := body.prize
    official := user.contributorAdmin && body.official
    tasksOrder := ⟨[], [], [], []⟩ }

/-- `api.createChallenge` (lines 26-100).  The group-store lookup
(`Group.getGroup`) is modelled by the `groupFound` argument.  After the
checks and the funding block, line 75 increments `group.challengeCount`
and line 80 builds the challenge entity; then line 82 evaluates
`tasks.map(tasks, taskToCreate => ...)`, passing the `tasks` array itself
in the callback position, so `Array.prototype.map` throws a `TypeError`
(ES2015 22.1.3.15 step 3, also for an empty array) and the handler
rejects before anything is persisted. -/
def createChallenge (user : User) (body : CreateBody) (groupFound : Option Group)
    (freshId : String) : Except ApiError Challenge :=
  if body.group = "" then Except.error (ApiError.validation "groupIdRequired")
  else
    match groupFound with
    | none => Except.error (ApiError.notFound "groupNotFound")
    | some group =>
      if group.leaderOnlyChallenges = true ∧ group.leader ≠ user.id then
        Except.error (ApiError.notAuthorized "onlyGroupLeaderChal")
      else if body.group = "habitrpg" ∧ body.prize < 1 then
        Except.error (ApiError.notAuthorized "pubChalsMinPrize")
      else
        match fund group user body.prize with
        | ⟨_, _, some e⟩ => Except.error e
        | ⟨fundedGroup, _, none⟩ =>
          let _countedGroup : Group :=
            { fundedGroup with challengeCount := fundedGroup.challengeCount + 1 }
          let _challenge : Challenge := buildChallenge user body freshId
          Except.error (ApiError.typeError "tasks.map called with the tasks array in the callback position")

/-- Lines 180-181: the in-memory mutation of the winner document performed
before `winner.save()` — append the challenge name to
`achievements.challenges` and credit `challenge.prize / 4`. -/
def payoutMutate (challenge : Challenge) (winner : User) : User :=
  { winner with
      achievementsChallenges := winner.achievementsChallenges ++ [challenge.name]
      balance := winner.balance + prizeCost challenge.prize }

/-- Outcome of the winner branch of `_closeChal`: the persisted winner
document (if `winner.save()` settled successfully) and whether the email
and push notifications were sent. -/
structure PayoutResult where
  saved : Option User
  emailSent : Bool
  pushSent : Bool
  deriving Repr, DecidableEq

/-- The winner branch of `_closeChal` (lines 178-191).  `saveOk` models
whether `winner.save()` succeeds; the `.then` continuation runs only in
that case.  Inside it, `txnEmail` is called only when
`savedWinner.preferences.emailNotifications.wonChallenge !== false`, while
`pushNotify.sendNotify` is called unconditionally. -/
def winnerPayout (challenge : Challenge) (winner : User) (saveOk : Bool) : PayoutResult :=
  let savedWinner := payoutMutate challenge winner
  if saveOk then
    { saved := some savedWinner
      emailSent := if savedWinner.wonChallengeEmailPref = some false then false else true
      pushSent := true }
  else
    { saved := none, emailSent := false, pushSent := false }

/-- One operation pushed onto the `tasks` array of `_closeChal` and settled
by `Q.allSettled` (lines 147-193). -/
inductive SagaOp where
  | removeChallenge (challengeId : String)
  | removeSeedTasks (challengeId : String)
  | untagMembers (challengeId : String)
  | breakMemberTasks (challengeId : String) (reason : Option String) (winnerName : Option String)
  | incGroupChallengeCount (groupId : String) (delta : Int)
  | creditUser (userId : String) (amount : ℚ)
  | saveWinnerAndNotify (winner : User)
  deriving Repr, DecidableEq

/-- The list of operations `_closeChal` dispatches (lines 143-193), in the
order they are pushed: remove the challenge, remove its unowned tasks
(`userId: (dollar)exists false`), untag members, mark members' task copies
broken with `broken.broken` and `winner && winner.profile.name`, decrement
the group's `challengeCount` by 1; then, only when
`challenge.group !== 'habitrpg' && brokenReason === 'CHALLENGE_DELETED'`,
credit the challenge leader with `challenge.prize / 4`; then, only when a
winner is present, save the mutated winner and notify. -/
def closeChalOps (challenge : Challenge) (broken : BrokenInfo) : List SagaOp :=
  [ SagaOp.removeChallenge challenge.id,
    SagaOp.removeSeedTasks challenge.id,
    SagaOp.untagMembers challenge.id,
    SagaOp.breakMemberTasks challenge.id broken.broken (Option.map User.profileName broken.winner),
    SagaOp.incGroupChallengeCount challenge.group (-1) ]
  ++ (if challenge.group ≠ "habitrpg" ∧ broken.broken = some "CHALLENGE_DELETED" then
        [SagaOp.creditUser challenge.leader (prizeCost challenge.prize)]
      else [])
  ++ (match broken.winner with
      | some w => [SagaOp.saveWinnerAndNotify (payoutMutate challenge w)]
      | none => [])

/-- Whether a saga operation is the group `challengeCount` update. -/
def isCountOp : SagaOp → Bool
  | SagaOp.incGroupChallengeCount _ _ => true
  | _ => false

/-- The selection used at line 151: a task bound to the challenge whose
`userId` is absent (an unowned seed task template). -/
def isSeedOf (challengeId : String) (t : Task) : Bool :=
  decide (t.challengeId = some challengeId ∧ t.userId = none)

/-- Effect of `Tasks.Task.remove` at line 151 on the task store: delete
every unowned task bound to the challenge. -/
def applyRemoveSeedTasks (challengeId : String) (ts : List Task) : List Task :=
  ts.filter fun t => ! isSeedOf challengeId t

/-- The update document of lines 161-168 applied to one task: set
`challenge.broken` to the reason and `challenge.winner` to the winner's
display name (absent when there is no winner). -/
def breakTask (reason winnerName : Option String) (t : Task) : Task :=
  { t with challengeBroken := reason, challengeWinner := winnerName }

/-- Effect of `Tasks.Task.update` at lines 161-168 on the task store: mark
every task bound to the challenge. -/
def applyBreakTasks (challengeId : String) (reason winnerName : Option String)
    (ts : List Task) : List Task :=
  ts.map fun t => if t.challengeId = some challengeId then breakTask reason winnerName t else t

/-- The settled task store after `_closeChal`.  The removal (line 151) and
the marking update (lines 161-168) run concurrently under `Q.allSettled`;
both interleavings settle to the same store (a seed task that is marked
first is still removed, a surviving owned task is marked either way), so
the settled store is their composition. -/
def closeChalTaskStore (challenge : Challenge) (broken : BrokenInfo) (ts : List Task) : List Task :=
  applyBreakTasks challenge.id broken.broken (Option.map User.profileName broken.winner)
    (applyRemoveSeedTasks challenge.id ts)

/-- `api.deleteChallenge` (lines 205-229).  The challenge-store lookup is
modelled by `challengeFound`.  On success the handler acknowledges and
dispatches `_closeChal(challenge, broken CHALLENGE_DELETED)`; the
acknowledged value is modelled as the dispatched saga arguments. -/
def deleteChallenge (user : User) (challengeFound : Option Challenge) :
    Except ApiError (Challenge × BrokenInfo) :=
  match challengeFound with
  | none => Except.error (ApiError.notFound "challengeNotFound")
  | some challenge =>
    if challenge.leader ≠ user.id ∧ user.contributorAdmin = false then
      Except.error (ApiError.notAuthorized "onlyLeaderDeleteChal")
    else Except.ok (challenge, ⟨some "CHALLENGE_DELETED", none⟩)

/-- `api.selectChallengeWinner` (lines 239-272).  The handler declares
`let challenge;` (line 245) and, in the first `.then`, tests
`if (!challenge)` (line 256) — the still-unassigned local variable, not the
`challengeFound` value resolved by the query — so the test is always truthy
and the handler always throws `NotFound('challengeNotFound')`.  The
continuation after that test (leader/admin check, assignment
`challenge = challengeFound`, winner membership check, dispatch of
`_closeChal(challenge, broken CHALLENGE_DELETED with winner)`) is dead
code; it is embedded below the always-taken `none` branch. -/
def selectChallengeWinner (user : User) (challengeFound : Option Challenge)
    (winnerFound : Option User) : Except ApiError (Challenge × BrokenInfo) :=
  let challenge : Option Challenge := none
  match challenge with
  | none => Except.error (ApiError.notFound "challengeNotFound")
  | some assigned =>
    if assigned.leader ≠ user.id ∧ user.contributorAdmin = false then
      Except.error (ApiError.notAuthorized "onlyLeaderDeleteChal")
    else
      match challengeFound, winnerFound with
      | some challengeAssigned, some winner =>
        if winner.challenges.contains challengeAssigned.id then
          Except.ok (challengeAssigned, ⟨some "CHALLENGE_DELETED", some winner⟩)
        else Except.error (ApiError.notFound "winnerNotFound")
      | _, _ => Except.error (ApiError.notFound "winnerNotFound")

/-! Concrete documents used to instantiate the claim theorems. -/

/-- An empty per-type task-order record. -/
def emptyOrder : TasksOrder := ⟨[], [], [], []⟩

def gEx1 : Group :=
  { id := "g1", balance := 1, challengeCount := 0, leader := "u1", leaderOnlyChallenges := false }

def uEx1 : User :=
  { id := "u1", balance := 10, contributorAdmin := false, challenges := [],
    achievementsChallenges := [], wonChallengeEmailPref := none, profileName := "Alice" }

/-- `gEx1` after funding a prize of 8: the group balance 1 is consumed. -/
def gEx1b : Group := { gEx1 with balance := 0 }

/-- `uEx1` after funding a prize of 8: the user pays the remainder 1. -/
def uEx1b : User := { uEx1 with balance := 9 }

def uEx2 : User :=
  { id := "u2", balance := 0, contributorAdmin := false, challenges := [],
    achievementsChallenges := [], wonChallengeEmailPref := none, profileName := "Leader Two" }

def cEx2 : Challenge :=
  { id := "c2", group := "g2", leader := "u2", name := "Spring Cleaning", prize := 8,
    official := false, tasksOrder := emptyOrder }

def wEx2 : User :=
  { id := "w2", balance := 3, contributorAdmin := false, challenges := ["c2"],
    achievementsChallenges := [], wonChallengeEmailPref := none, profileName := "Winner Two" }

def uEx3 : User :=
  { id := "u3", balance := 10, contributorAdmin := false, challenges := [],
    achievementsChallenges := [], wonChallengeEmailPref := none, profileName := "Creator Three" }

def gEx3 : Group :=
  { id := "g3", balance := 0, challengeCount := 0, leader := "u3", leaderOnlyChallenges := false }

def bodyEx3 : CreateBody :=
  { group := "g3", prize := 4, tasks := [⟨TaskType.todo, "spec1"⟩], official := false,
    name := "Challenge Three" }

def wEx4 : User :=
  { id := "w4", balance := 0, contributorAdmin := false, challenges := ["c4"],
    achievementsChallenges := [], wonChallengeEmailPref := none, profileName := "Winner Four" }

def cEx4 : Challenge :=
  { id := "c4", group := "g4", leader := "lead4", name := "Challenge Four", prize := 8,
    official := false, tasksOrder := emptyOrder }

/-- The second argument `api.selectChallengeWinner` builds at line 268:
reason `CHALLENGE_DELETED` together with a winner. -/
def bEx4 : BrokenInfo := { broken := some "CHALLENGE_DELETED", winner := some wEx4 }

def wEx5 : User :=
  { id := "w5", balance := 2, contributorAdmin := false, challenges := ["c5"],
    achievementsChallenges := ["Old Win"], wonChallengeEmailPref := some false,
    profileName := "Winner Five" }

def cEx5 : Challenge :=
  { id := "c5", group := "g5", leader := "lead5", name := "Challenge Five", prize := 12,
    official := false, tasksOrder := emptyOrder }

def bEx5 : BrokenInfo := { broken := some "CHALLENGE_DELETED", winner := some wEx5 }

def gEx6 : Group :=
  { id := "g6", balance := 0, challengeCount := 0, leader := "u6", leaderOnlyChallenges := false }

def uEx6 : User :=
  { id := "u6", balance := 1, contributorAdmin := false, challenges := [],
    achievementsChallenges := [], wonChallengeEmailPref := none, profileName := "Creator Six" }

def bodyEx6 : CreateBody :=
  { group := "g6", prize := 20, tasks := [], official := false, name := "Challenge Six" }

def gEx7 : Group :=
  { id := "g7", balance := 5, challengeCount := 0, leader := "other7", leaderOnlyChallenges := false }

def uEx7 : User :=
  { id := "u7", balance := 10, contributorAdmin := false, challenges := [],
    achievementsChallenges := [], wonChallengeEmailPref := none, profileName := "Creator Seven" }

def uEx8 : User :=
  { id := "u8", balance := 10, contributorAdmin := false, challenges := [],
    achievementsChallenges := [], wonChallengeEmailPref := none, profileName := "Creator Eight" }

def gEx8 : Group :=
  { id := "g8", balance := 0, challengeCount := 3, leader := "u8", leaderOnlyChallenges := false }

def bodyEx8 : CreateBody :=
  { group := "g8", prize := 0, tasks := [], official := false, name := "Challenge Eight" }

def wEx9 : User :=
  { id := "w9", balance := 0, contributorAdmin := false, challenges := ["c9"],
    achievementsChallenges := [], wonChallengeEmailPref := none, profileName := "Winner Nine" }

def cEx9 : Challenge :=
  { id := "c9", group := "g9", leader := "lead9", name := "Challenge Nine", prize := 8,
    official := false, tasksOrder := emptyOrder }

def bEx9 : BrokenInfo := { broken := some "CHALLENGE_DELETED", winner := some wEx9 }

/-- An unowned seed task bound to `cEx9`. -/
def seedEx9 : Task :=
  { id := "t91", type := TaskType.habit, challengeId := some "c9", userId := none,
    challengeBroken := none, challengeWinner := none }

/-- A member-owned copy bound to `cEx9`. -/
def ownedEx9 : Task :=
  { id := "t92", type := TaskType.daily, challengeId := some "c9", userId := some "m9",
    challengeBroken := none, challengeWinner := none }

/-- A task of another challenge, untouched by the teardown. -/
def otherEx9 : Task :=
  { id := "t93", type := TaskType.todo, challengeId := some "cOther", userId := some "m9",
    challengeBroken := none, challengeWinner := none }

def tsEx9 : List Task := [seedEx9, ownedEx9, otherEx9]

def uEx10 : User :=
  { id := "u10", balance := 0, contributorAdmin := false, challenges := [],
    achievementsChallenges := [], wonChallengeEmailPref := none, profileName := "Creator Ten" }

def bodyEx10 : CreateBody :=
  { group := "g10", prize := 0, tasks := [], official := true, name := "Challenge Ten" }

/-! Claim theorems. -/

/-- C1: for every group, funding member and prize amount greater than 0 for
which the funding block succeeds, `prizeCost` equals a quarter of the prize,
the group contribution plus the member contribution equals the prize cost,
the eligible group balance is consumed first (down to 0, capped at the
cost) with the member paying the remainder, and exactly one of three
outcomes holds: the group pays in full, the group pays partially and the
member pays the remainder, or the member pays in full. -/
theorem c1_escrow_allocation (g : Group) (u : User) (prize : ℚ) (g2 : Group) (u2 : User)
    (hp : 0 < prize) (h : fund g u prize = ⟨g2, u2, none⟩) :
    prizeCost prize = prize / 4 ∧
    (g.balance - g2.balance) + (u.balance - u2.balance) = prizeCost prize ∧
    g.balance - g2.balance = min (max (groupBalanceEligible g u) 0) (prizeCost prize) ∧
    ((g.balance - g2.balance = prizeCost prize ∧ u.balance - u2.balance = 0) ∨
     (0 < g.balance - g2.balance ∧ g.balance - g2.balance < prizeCost prize ∧
       0 < u.balance - u2.balance) ∨
     (g.balance - g2.balance = 0 ∧ u.balance - u2.balance = prizeCost prize)) ∧
    ¬ ((g.balance - g2.balance = prizeCost prize ∧ u.balance - u2.balance = 0) ∧
       (0 < g.balance - g2.balance ∧ g.balance - g2.balance < prizeCost prize ∧
         0 < u.balance - u2.balance)) ∧
    ¬ ((g.balance - g2.balance = prizeCost prize ∧ u.balance - u2.balance = 0) ∧
       (g.balance - g2.balance = 0 ∧ u.balance - u2.balance = prizeCost prize)) ∧
    ¬ ((0 < g.balance - g2.balance ∧ g.balance - g2.balance < prizeCost prize ∧
         0 < u.balance - u2.balance) ∧
       (g.balance - g2.balance = 0 ∧ u.balance - u2.balance = prizeCost prize)) := by
  have hpc : 0 < prizeCost prize := by
    unfold prizeCost
    positivity
  have hex1 : ¬ ((g.balance - g2.balance = prizeCost prize ∧ u.balance - u2.balance = 0) ∧
      (0 < g.balance - g2.balance ∧ g.balance - g2.balance < prizeCost prize ∧
        0 < u.balance - u2.balance)) := by
    rintro ⟨⟨ha, -⟩, ⟨-, hb, -⟩⟩
    linarith
  have hex2 : ¬ ((g.balance - g2.balance = prizeCost prize ∧ u.balance - u2.balance = 0) ∧
      (g.balance - g2.balance = 0 ∧ u.balance - u2.balance = prizeCost prize)) := by
    rintro ⟨⟨ha, -⟩, ⟨hb, -⟩⟩
    linarith
  have hex3 : ¬ ((0 < g.balance - g2.balance ∧ g.balance - g2.balance < prizeCost prize ∧
        0 < u.balance - u2.balance) ∧
      (g.balance - g2.balance = 0 ∧ u.balance - u2.balance = prizeCost prize)) := by
    rintro ⟨⟨ha, -⟩, ⟨hb, -⟩⟩
    linarith
  have hmain : (g.balance - g2.balance) + (u.balance - u2.balance) = prizeCost prize ∧
      g.balance - g2.balance = min (max (groupBalanceEligible g u) 0) (prizeCost prize) ∧
      ((g.balance - g2.balance = prizeCost prize ∧ u.balance - u2.balance = 0) ∨
       (0 < g.balance - g2.balance ∧ g.balance - g2.balance < prizeCost prize ∧
         0 < u.balance - u2.balance) ∨
       (g.balance - g2.balance = 0 ∧ u.balance - u2.balance = prizeCost prize)) := by
    unfold fund at h
    rw [if_pos hp] at h
    by_cases hc1 : prizeCost prize > u.balance + groupBalanceEligible g u
    · rw [if_pos hc1] at h
      simp at h
    · rw [if_neg hc1] at h
      by_cases hc2 : groupBalanceEligible g u ≥ prizeCost prize
      · rw [if_pos hc2] at h
        simp only [FundOut.mk.injEq, and_true] at h
        obtain ⟨hg, hu⟩ := h
        have hgb2 : g2.balance = g.balance - prizeCost prize := by rw [← hg]
        have hub2 : u2.balance = u.balance := by rw [← hu]
        have h0gb : (0:ℚ) ≤ groupBalanceEligible g u := le_trans hpc.le hc2
        refine ⟨by rw [hgb2, hub2]; ring, ?_, ?_⟩
        · rw [hgb2, max_eq_left h0gb, min_eq_right hc2]
          ring
        · left
          constructor
          · rw [hgb2]; ring
          · rw [hub2]; ring
      · rw [if_neg hc2] at h
        by_cases hc3 : groupBalanceEligible g u > 0
        · rw [if_pos hc3] at h
          simp only [FundOut.mk.injEq, and_true] at h
          obtain ⟨hg, hu⟩ := h
          have hgb2 : g2.balance = 0 := by rw [← hg]
          have hub2 : u2.balance = u.balance - (prizeCost prize - g.balance) := by rw [← hu]
          have hgbeq : groupBalanceEligible g u = g.balance := by
            unfold groupBalanceEligible at hc3 ⊢
            split_ifs at hc3 ⊢ with hcond
            · rfl
            · linarith
          have hgpos : 0 < g.balance := by rw [← hgbeq]; exact hc3
          have hglt : g.balance < prizeCost prize := by
            rw [← hgbeq]
            exact lt_of_not_le hc2
          refine ⟨by rw [hgb2, hub2]; ring, ?_, ?_⟩
          · rw [hgb2, hgbeq, max_eq_left hgpos.le, min_eq_left hglt.le]
            ring
          · right; left
            refine ⟨by rw [hgb2]; linarith, by rw [hgb2]; linarith, by rw [hub2]; linarith⟩
        · rw [if_neg hc3] at h
          simp only [FundOut.mk.injEq, and_true] at h
          obtain ⟨hg, hu⟩ := h
          have hgb2 : g2.balance = g.balance := by rw [← hg]
          have hub2 : u2.balance = u.balance - prizeCost prize := by rw [← hu]
          have hgble : groupBalanceEligible g u ≤ 0 := le_of_not_lt hc3
          refine ⟨by rw [hgb2, hub2]; ring, ?_, ?_⟩
          · rw [hgb2, max_eq_right hgble, min_eq_left hpc.le]
            ring
          · right; right
            refine ⟨by rw [hgb2]; ring, by rw [hub2]; ring⟩
  exact ⟨rfl, hmain.1, hmain.2.1, hmain.2.2, hex1, hex2, hex3⟩

/-- Witness for C1: group balance 1 with the creator as leader, member
balance 10, prize 8 — the group pays 1 and the member pays the remaining 1
of the prize cost 2. -/
theorem c1_escrow_allocation_witness :
    (0:ℚ) < 8 ∧
    fund gEx1 uEx1 8 = ⟨gEx1b, uEx1b, none⟩ ∧
    (prizeCost 8 = 8 / 4 ∧
     (gEx1.balance - gEx1b.balance) + (uEx1.balance - uEx1b.balance) = prizeCost 8 ∧
     gEx1.balance - gEx1b.balance = min (max (groupBalanceEligible gEx1 uEx1) 0) (prizeCost 8) ∧
     ((gEx1.balance - gEx1b.balance = prizeCost 8 ∧ uEx1.balance - uEx1b.balance = 0) ∨
      (0 < gEx1.balance - gEx1b.balance ∧ gEx1.balance - gEx1b.balance < prizeCost 8 ∧
        0 < uEx1.balance - uEx1b.balance) ∨
      (gEx1.balance - gEx1b.balance = 0 ∧ uEx1.balance - uEx1b.balance = prizeCost 8)) ∧
     ¬ ((gEx1.balance - gEx1b.balance = prizeCost 8 ∧ uEx1.balance - uEx1b.balance = 0) ∧
        (0 < gEx1.balance - gEx1b.balance ∧ gEx1.balance - gEx1b.balance < prizeCost 8 ∧
          0 < uEx1.balance - uEx1b.balance)) ∧
     ¬ ((gEx1.balance - gEx1b.balance = prizeCost 8 ∧ uEx1.balance - uEx1b.balance = 0) ∧
        (gEx1.balance - gEx1b.balance = 0 ∧ uEx1.balance - uEx1b.balance = prizeCost 8)) ∧
     ¬ ((0 < gEx1.balance - gEx1b.balance ∧ gEx1.balance - gEx1b.balance < prizeCost 8 ∧
          0 < uEx1.balance - uEx1b.balance) ∧
        (gEx1.balance - gEx1b.balance = 0 ∧ uEx1.balance - uEx1b.balance = prizeCost 8))) :=
  ⟨by norm_num, by norm_num [fund, groupBalanceEligible, prizeCost, gEx1, uEx1, gEx1b, uEx1b],
   c1_escrow_allocation gEx1 uEx1 8 gEx1b uEx1b (by norm_num)
     (by norm_num [fund, groupBalanceEligible, prizeCost, gEx1, uEx1, gEx1b, uEx1b])⟩

/-- C2: even with an existing challenge, an authorized requester (the
challenge leader) and an existing winner who has the challenge in their
joined set, `api.selectChallengeWinner` fails with
`NotFound('challengeNotFound')`: line 256 tests the still-unassigned local
`challenge` variable instead of the resolved `challengeFound`, so the
handler never acknowledges and never dispatches the teardown. -/
theorem c2_select_winner_always_not_found :
    cEx2.leader = uEx2.id ∧
    wEx2.challenges.contains cEx2.id = true ∧
    selectChallengeWinner uEx2 (some cEx2) (some wEx2) =
      Except.error (ApiError.notFound "challengeNotFound") :=
  ⟨rfl, by decide, rfl⟩

/-- C3: a creation request that passes validation, authorization and funding
(real group, no leader-only restriction, affordable prize, one supplied task
specification) still builds no seed task and returns no challenge: line 82
passes the `tasks` array itself in the callback position of
`Array.prototype.map`, so the handler always rejects with a `TypeError`. -/
theorem c3_create_always_type_error :
    bodyEx3.tasks = [⟨TaskType.todo, "spec1"⟩] ∧
    createChallenge uEx3 bodyEx3 (some gEx3) "chal-3" =
      Except.error (ApiError.typeError "tasks.map called with the tasks array in the callback position") := by
  refine ⟨rfl, ?_⟩
  norm_num [createChallenge, fund, groupBalanceEligible, prizeCost, uEx3, gEx3, bodyEx3,
    (by decide : ("g3" : String) ≠ ""), (by decide : ("g3" : String) ≠ "habitrpg")]

/-- C4 counterexample: a teardown carrying a winner together with reason
`CHALLENGE_DELETED` — exactly the arguments `api.selectChallengeWinner`
builds at line 268 — on a challenge of a non-default group still credits
the leader, so "a teardown dispatched with a winner does not credit the
leader" is false of `_closeChal`. -/
theorem c4_counterexample :
    ¬ ((SagaOp.creditUser cEx4.leader (prizeCost cEx4.prize) ∈ closeChalOps cEx4 bEx4) →
        bEx4.winner = none) := by
  intro hclaim
  have hmem : SagaOp.creditUser cEx4.leader (prizeCost cEx4.prize) ∈ closeChalOps cEx4 bEx4 := by
    unfold closeChalOps
    rw [if_pos (by decide : cEx4.group ≠ "habitrpg" ∧ bEx4.broken = some "CHALLENGE_DELETED")]
    exact List.mem_append_left _ (List.mem_append_right _ (List.mem_singleton_self _))
  have hwin := hclaim hmem
  simp [bEx4] at hwin

/-- C4 amended: `_closeChal` credits the challenge leader's balance by
`prizeCost` exactly when the broken reason is `CHALLENGE_DELETED` and the
challenge's group is not the default public group, regardless of whether
the teardown carries a winner (lines 173-176). -/
theorem c4_leader_refund_iff (c : Challenge) (b : BrokenInfo) :
    SagaOp.creditUser c.leader (prizeCost c.prize) ∈ closeChalOps c b ↔
      (c.group ≠ "habitrpg" ∧ b.broken = some "CHALLENGE_DELETED") := by
  unfold closeChalOps
  by_cases hcond : c.group ≠ "habitrpg" ∧ b.broken = some "CHALLENGE_DELETED"
  · rw [if_pos hcond]
    rcases hw : b.winner with _ | w <;> simp [hcond]
  · rw [if_neg hcond]
    rcases hw : b.winner with _ | w <;> simp [hcond]

/-- C5 counterexample: a winner whose `wonChallenge` email preference is
`false` still gets the push notification once the save settles, so "a
congratulatory notification is sent only if the winner's notification
preference allows it" is false of the winner branch of `_closeChal`. -/
theorem c5_counterexample :
    ¬ (((winnerPayout cEx5 wEx5 true).emailSent = true ∨
        (winnerPayout cEx5 wEx5 true).pushSent = true) →
       wEx5.wonChallengeEmailPref ≠ some false) := by
  intro hclaim
  have hpush : (winnerPayout cEx5 wEx5 true).pushSent = true := rfl
  exact hclaim (Or.inr hpush) rfl

/-- C5 amended: the winner branch of `_closeChal` appends the challenge name
to the winner's achievement list and credits the winner's balance by
`prizeCost` before saving; the saved document exists exactly when the save
succeeds; the email is sent iff the save succeeded and the winner's
`wonChallenge` email preference is not `false`; the push notification is
sent iff the save succeeded, regardless of the preference; any notification
implies the winner was persisted; and the saga runs this branch whenever
the teardown carries a winner. -/
theorem c5_winner_payout (c : Challenge) (w : User) (saveOk : Bool) (b : BrokenInfo) :
    (payoutMutate c w).achievementsChallenges = w.achievementsChallenges ++ [c.name] ∧
    (payoutMutate c w).balance = w.balance + prizeCost c.prize ∧
    ((winnerPayout c w saveOk).saved = if saveOk = true then some (payoutMutate c w) else none) ∧
    ((winnerPayout c w saveOk).emailSent = true ↔
      (saveOk = true ∧ w.wonChallengeEmailPref ≠ some false)) ∧
    ((winnerPayout c w saveOk).pushSent = true ↔ saveOk = true) ∧
    (((winnerPayout c w saveOk).emailSent = true ∨ (winnerPayout c w saveOk).pushSent = true) →
      (winnerPayout c w saveOk).saved = some (payoutMutate c w)) ∧
    (b.winner = some w →
      SagaOp.saveWinnerAndNotify (payoutMutate c w) ∈ closeChalOps c b) := by
  refine ⟨rfl, rfl, ?_, ?_, ?_, ?_, ?_⟩
  · cases saveOk <;> simp [winnerPayout]
  · cases saveOk <;> simp only [winnerPayout] <;>
      by_cases hw : w.wonChallengeEmailPref = some false <;>
      simp [payoutMutate, hw]
  · cases saveOk <;> simp [winnerPayout]
  · cases saveOk <;> simp [winnerPayout]
  · intro hbw
    simp [closeChalOps, hbw]

/-- Witness for C5's amended statement: a concrete winner teardown where the
save succeeds, the winner is persisted and the saga contains the
save-and-notify branch. -/
theorem c5_winner_payout_witness :
    ((winnerPayout cEx5 wEx5 true).saved = some (payoutMutate cEx5 wEx5)) ∧
    (SagaOp.saveWinnerAndNotify (payoutMutate cEx5 wEx5) ∈ closeChalOps cEx5 bEx5) :=
  ⟨(c5_winner_payout cEx5 wEx5 true bEx5).2.2.2.2.2.1 (Or.inr rfl),
   (c5_winner_payout cEx5 wEx5 true bEx5).2.2.2.2.2.2 rfl⟩

/-- C10: the challenge entity constructed at lines 78-80 carries
`official = true` only if the creating member is a platform administrator;
for a non-admin creator the flag is false regardless of the requested
value. -/
theorem c10_official_only_admin (u : User) (body : CreateBody) (freshId : String) :
    ((buildChallenge u body freshId).official = true → u.contributorAdmin = true) ∧
    (u.contributorAdmin = false → (buildChallenge u body freshId).official = false) := by
  unfold buildChallenge
  rcases hadmin : u.contributorAdmin <;> simp [hadmin]

/-- Witness for C10: a non-admin creator requesting `official = true` still
gets a challenge with `official = false`. -/
theorem c10_official_only_admin_witness :
    uEx10.contributorAdmin = false ∧ bodyEx10.official = true ∧
    (buildChallenge uEx10 bodyEx10 "chal-10").official = false :=
  ⟨rfl, rfl, (c10_official_only_admin uEx10 bodyEx10 "chal-10").2 rfl⟩

/-- C6: whenever the prize is positive and the prize cost exceeds the
member's balance plus the eligible group contribution, the funding block
throws `NotAuthorized('cantAfford')` before any assignment, leaving both
balances unchanged, and `api.createChallenge` surfaces exactly that error
(for a request that passes validation and the authorization checks). -/
theorem c6_insufficient_funds (g : Group) (u : User) (body : CreateBody) (freshId : String)
    (hbody : body.group ≠ "")
    (hlo : ¬ (g.leaderOnlyChallenges = true ∧ g.leader ≠ u.id))
    (hpub : ¬ (body.group = "habitrpg" ∧ body.prize < 1))
    (hp : 0 < body.prize)
    (hin : prizeCost body.prize > u.balance + groupBalanceEligible g u) :
    fund g u body.prize = ⟨g, u, some (ApiError.notAuthorized "cantAfford")⟩ ∧
    createChallenge u body (some g) freshId =
      Except.error (ApiError.notAuthorized "cantAfford") := by
  have hfund : fund g u body.prize = ⟨g, u, some (ApiError.notAuthorized "cantAfford")⟩ := by
    unfold fund
    rw [if_pos hp, if_pos hin]
  refine ⟨hfund, ?_⟩
  unfold createChallenge
  rw [if_neg hbody]
  dsimp only
  rw [if_neg hlo, if_neg hpub, hfund]

/-- Witness for C6, the spec's scenario C: group balance 0, member balance
1, prize 20, so the prize cost 5 exceeds 1 + 0; funding fails with
`cantAfford` and no balance changes. -/
theorem c6_insufficient_funds_witness :
    (0:ℚ) < bodyEx6.prize ∧
    prizeCost bodyEx6.prize > uEx6.balance + groupBalanceEligible gEx6 uEx6 ∧
    fund gEx6 uEx6 bodyEx6.prize = ⟨gEx6, uEx6, some (ApiError.notAuthorized "cantAfford")⟩ ∧
    createChallenge uEx6 bodyEx6 (some gEx6) "chal-6" =
      Except.error (ApiError.notAuthorized "cantAfford") :=
  ⟨by norm_num [bodyEx6],
   by norm_num [prizeCost, groupBalanceEligible, bodyEx6, uEx6, gEx6],
   (c6_insufficient_funds gEx6 uEx6 bodyEx6 "chal-6" (by decide) (by decide) (by decide)
      (by norm_num [bodyEx6])
      (by norm_num [prizeCost, groupBalanceEligible, bodyEx6, uEx6, gEx6])).1,
   (c6_insufficient_funds gEx6 uEx6 bodyEx6 "chal-6" (by decide) (by decide) (by decide)
      (by norm_num [bodyEx6])
      (by norm_num [prizeCost, groupBalanceEligible, bodyEx6, uEx6, gEx6])).2⟩

/-- C7: when the funding member is not the group's leader, the eligible
group contribution is 0, the group document is never changed by the funding
block (in particular its balance is never reduced), and on success with a
positive prize the member's personal balance pays the whole prize cost. -/
theorem c7_nonleader_group_untouched (g : Group) (u : User) (prize : ℚ)
    (hne : g.leader ≠ u.id) :
    groupBalanceEligible g u = 0 ∧
    (fund g u prize).group = g ∧
    ((fund g u prize).thrown = none → 0 < prize →
      (fund g u prize).user.balance = u.balance - prizeCost prize) := by
  have hgb : groupBalanceEligible g u = 0 := by
    unfold groupBalanceEligible
    rw [if_neg]
    rintro ⟨-, hleq⟩
    exact hne hleq
  by_cases hp : 0 < prize
  · have hpc : 0 < prizeCost prize := by
      unfold prizeCost
      positivity
    by_cases hc1 : prizeCost prize > u.balance + groupBalanceEligible g u
    · have hf : fund g u prize = ⟨g, u, some (ApiError.notAuthorized "cantAfford")⟩ := by
        unfold fund
        rw [if_pos hp, if_pos hc1]
      refine ⟨hgb, by rw [hf], ?_⟩
      rw [hf]
      intro hnone
      simp at hnone
    · have hc2 : ¬ (groupBalanceEligible g u ≥ prizeCost prize) := by
        rw [hgb]
        exact not_le.mpr hpc
      have hc3 : ¬ (groupBalanceEligible g u > 0) := by
        rw [hgb]
        exact lt_irrefl 0
      have hf : fund g u prize = ⟨g, { u with balance := u.balance - prizeCost prize }, none⟩ := by
        unfold fund
        rw [if_pos hp, if_neg hc1, if_neg hc2, if_neg hc3]
      refine ⟨hgb, by rw [hf], ?_⟩
      rw [hf]
      intro _ _
      rfl
  · have hf : fund g u prize = ⟨g, u, none⟩ := by
      unfold fund
      rw [if_neg hp]
    refine ⟨hgb, by rw [hf], ?_⟩
    intro _ hp2
    exact absurd hp2 hp

/-- Witness for C7: the requester is not the leader of a group holding
balance 5; funding a prize of 8 succeeds, leaves the group untouched and
charges the member the whole cost 2. -/
theorem c7_nonleader_group_untouched_witness :
    gEx7.leader ≠ uEx7.id ∧
    groupBalanceEligible gEx7 uEx7 = 0 ∧
    (fund gEx7 uEx7 8).group = gEx7 ∧
    (fund gEx7 uEx7 8).user.balance = uEx7.balance - prizeCost 8 :=
  ⟨by decide,
   (c7_nonleader_group_untouched gEx7 uEx7 8 (by decide)).1,
   (c7_nonleader_group_untouched gEx7 uEx7 8 (by decide)).2.1,
   (c7_nonleader_group_untouched gEx7 uEx7 8 (by decide)).2.2
     (by norm_num [fund, groupBalanceEligible, prizeCost, gEx7, uEx7,
        (by decide : ("other7" : String) ≠ "u7")]) (by norm_num)⟩

/-- C8: the teardown saga contains exactly one `challengeCount` update, a
decrement of the owning group's count by 1, and the funding block never
touches `challengeCount`; the creation-side increment (line 75), however,
can never be observed through a successful creation, because every creation
attempt — here a fully valid one — rejects with the `tasks.map`
`TypeError` before anything is persisted. -/
theorem c8_challenge_count :
    (∀ (c : Challenge) (b : BrokenInfo),
      (closeChalOps c b).filter isCountOp = [SagaOp.incGroupChallengeCount c.group (-1)]) ∧
    (∀ (g : Group) (u : User) (prize : ℚ),
      (fund g u prize).group.challengeCount = g.challengeCount) ∧
    createChallenge uEx8 bodyEx8 (some gEx8) "chal-8" =
      Except.error (ApiError.typeError "tasks.map called with the tasks array in the callback position") := by
  refine ⟨?_, ?_, ?_⟩
  · intro c b
    unfold closeChalOps
    rcases hw : b.winner with _ | w <;>
      by_cases hc : c.group ≠ "habitrpg" ∧ b.broken = some "CHALLENGE_DELETED" <;>
      simp [hc, isCountOp]
  · intro g u prize
    unfold fund
    split_ifs <;> rfl
  · norm_num [createChallenge, fund, groupBalanceEligible, prizeCost, uEx8, gEx8, bodyEx8,
      (by decide : ("g8" : String) ≠ ""), (by decide : ("g8" : String) ≠ "habitrpg")]

/-- C9: the settled task store of a teardown contains no unowned task bound
to the challenge; every member-owned task bound to the challenge survives,
marked broken with the outcome's reason and (when a winner exists) the
winner's display name; and tasks of other challenges are untouched — in
particular no member-owned task copy is ever deleted. -/
theorem c9_teardown_tasks (c : Challenge) (b : BrokenInfo) (ts : List Task) :
    (∀ t ∈ closeChalTaskStore c b ts, ¬ (t.challengeId = some c.id ∧ t.userId = none)) ∧
    (∀ t ∈ ts, t.challengeId = some c.id → t.userId ≠ none →
      breakTask b.broken (Option.map User.profileName b.winner) t ∈ closeChalTaskStore c b ts) ∧
    (∀ t ∈ ts, t.challengeId ≠ some c.id → t ∈ closeChalTaskStore c b ts) := by
  unfold closeChalTaskStore applyBreakTasks applyRemoveSeedTasks
  refine ⟨?_, ?_, ?_⟩
  · intro t ht
    simp only [List.mem_map, List.mem_filter] at ht
    obtain ⟨t0, ⟨ht0, hkeep⟩, hmap⟩ := ht
    have hkeep2 : ¬ (t0.challengeId = some c.id ∧ t0.userId = none) := by
      simp only [isSeedOf, Bool.not_eq_true', decide_eq_false_iff_not] at hkeep
      exact hkeep
    by_cases hc : t0.challengeId = some c.id
    · rw [if_pos hc] at hmap
      subst hmap
      intro hcon
      exact hkeep2 ⟨hc, by simpa [breakTask] using hcon.2⟩
    · rw [if_neg hc] at hmap
      subst hmap
      exact fun hcon => hc hcon.1
  · intro t ht hcid huid
    simp only [List.mem_map, List.mem_filter]
    refine ⟨t, ⟨ht, ?_⟩, ?_⟩
    · simp [isSeedOf, huid]
    · rw [if_pos hcid]
  · intro t ht hcid
    simp only [List.mem_map, List.mem_filter]
    refine ⟨t, ⟨ht, ?_⟩, ?_⟩
    · simp [isSeedOf, hcid]
    · rw [if_neg hcid]

/-- Witness for C9: in a store holding a seed task, a member-owned copy and
an unrelated task, the member-owned copy of the closed challenge survives,
marked with the reason and the winner's display name. -/
theorem c9_teardown_tasks_witness :
    ownedEx9 ∈ tsEx9 ∧ ownedEx9.challengeId = some cEx9.id ∧ ownedEx9.userId ≠ none ∧
    breakTask bEx9.broken (Option.map User.profileName bEx9.winner) ownedEx9 ∈
      closeChalTaskStore cEx9 bEx9 tsEx9 :=
  ⟨by decide, by decide, by decide,
   (c9_teardown_tasks cEx9 bEx9 tsEx9).2.1 ownedEx9 (by decide) (by decide) (by decide)⟩

end HabiticaChallenges
